import Mathlib

/-!
Shallow embedding of the Greenscore API (`src/server/main.py`).

The service keeps three SQLite tables (`users`, `products`, `purchases`,
created by `init_db`) and exposes five HTTP handlers.  Persistent state is
modelled as lists of table rows; SQLite REAL values and Python floats are
modelled as exact rationals; each handler becomes a function from the state
(plus the request data and, where the source draws on an external generator,
the generated value) to `Except ApiError result`, where `ApiError` covers the
outcomes the source can produce: a pydantic validation rejection, a
`fastapi.HTTPException`, a `sqlite3.OperationalError`, and a Python
`NameError`.
-/

namespace Greenscore

/-- A row of the `users` table: `id TEXT PRIMARY KEY, phone_number TEXT UNIQUE,
name TEXT, green_score REAL`. -/
structure UserRow where
  id : String
  phone_number : String
  name : String
  green_score : ℚ
deriving DecidableEq

/-- A row of the `products` table: `id TEXT PRIMARY KEY, name TEXT, cost REAL,
carbon_emission REAL, sustainability_score REAL`.  Note the column holding the
product identifier is named `id`, not `product_id`. -/
structure ProductRow where
  id : String
  name : String
  cost : ℚ
  carbon_emission : ℚ
  sustainability_score : ℚ
deriving DecidableEq

/-- A row of the `purchases` table: `id INTEGER PRIMARY KEY AUTOINCREMENT,
user_id TEXT, product_id TEXT, timestamp TEXT, impact_on_green_score REAL`. -/
structure PurchaseRow where
  id : Nat
  user_id : String
  product_id : String
  timestamp : String
  impact_on_green_score : ℚ
deriving DecidableEq

/-- The persistent state: the three tables, plus the AUTOINCREMENT counter the
store uses for the next purchase identifier. -/
structure DBState where
  users : List UserRow
  products : List ProductRow
  purchases : List PurchaseRow
  nextPurchaseId : Nat
deriving DecidableEq

/-- Failure outcomes a request handler of the source can produce.
`validationError` is pydantic rejecting the request body (HTTP 422);
`httpError` is a raised `fastapi.HTTPException` with status and detail;
`operationalError` is an uncaught `sqlite3.OperationalError` (surfaced as a
500 by FastAPI); `nameError` is an uncaught Python `NameError` for an
undefined name (also a 500). -/
inductive ApiError where
  | validationError
  | httpError (status : Nat) (detail : String)
  | operationalError (msg : String)
  | nameError (missing : String)
deriving DecidableEq

/-- Python `int(x)` applied to a real value: truncation toward zero
(floor for nonnegative arguments, ceiling for negative ones). -/
def ratTruncate (q : ℚ) : ℤ :=
  if 0 ≤ q then ⌊q⌋ else ⌈q⌉

/-- `calculate_green_score` (source lines 53-57):
`base_score = 100`;
`cost_factor = max(0, (50 - cost) / 50) * 20`;
`emission_factor = max(0, (20 - carbon_emission) / 20) * 80`;
`return int(base_score - cost_factor - emission_factor)`. -/
def calculate_green_score (cost carbon_emission : ℚ) : ℤ :=
  let base_score : ℚ := 100
  let cost_factor : ℚ := max 0 ((50 - cost) / 50) * 20
  let emission_factor : ℚ := max 0 ((20 - carbon_emission) / 20) * 80
  ratTruncate (base_score - cost_factor - emission_factor)

/-- The scoring formula exactly as the spec words it (section 4.1):
`score = 100 − max(0, (50 − cost) / 50) × 20 − max(0, (20 − carbon_emission) / 20) × 80`,
"then truncated toward zero to an integer". -/
def spec_green_score (cost carbon_emission : ℚ) : ℤ :=
  ratTruncate (100 - max 0 ((50 - cost) / 50) * 20
                   - max 0 ((20 - carbon_emission) / 20) * 80)

/-- The request body of `POST /users`: pydantic model `User`
(`phone_number: str` with pattern `^\d{10}$`, `name: str`, no constraint on
`name`). -/
structure UserRequest where
  phone_number : String
  name : String
deriving DecidableEq

/-- The pydantic pattern `^\d{10}$` on `phone_number`: exactly ten digits. -/
def validPhone (s : String) : Bool :=
  s.length = 10 && s.toList.all Char.isDigit

/-- `register_user`, `POST /users` (source lines 112-138).  Pydantic first
validates the body (pattern check on the phone number; `name` is an
unconstrained `str`).  The handler then looks the phone number up
(`SELECT id FROM users WHERE phone_number = ?`); if a row exists it raises
`HTTPException(400, "Phone number already registered")`, otherwise it inserts
a new user with the freshly generated `uuid4()` identifier (passed here as
`newId`, since the generator is external randomness) and `green_score` 0.0,
and returns that user. -/
def register_user (st : DBState) (newId : String) (req : UserRequest) :
    Except ApiError (DBState × UserRow) :=
  if validPhone req.phone_number then
    match st.users.find? (fun u => u.phone_number == req.phone_number) with
    | some _ => .error (.httpError 400 "Phone number already registered")
    | none =>
        let newUser : UserRow := ⟨newId, req.phone_number, req.name, 0⟩
        .ok ({ st with users := st.users ++ [newUser] }, newUser)
  else .error .validationError

/-- `get_user`, `GET /users/{user_id}` (source lines 141-152):
`SELECT * FROM users WHERE id = ?`, 404 `"User not found"` when no row. -/
def get_user (st : DBState) (user_id : String) : Except ApiError UserRow :=
  match st.users.find? (fun u => u.id == user_id) with
  | none => .error (.httpError 404 "User not found")
  | some u => .ok u

/-- `get_green_score`, `GET /users/{user_id}/green-score` (source lines
155-163): `SELECT id, green_score FROM users WHERE id = ?`, 404 when no row. -/
def get_green_score (st : DBState) (user_id : String) :
    Except ApiError (String × ℚ) :=
  match st.users.find? (fun u => u.id == user_id) with
  | none => .error (.httpError 404 "User not found")
  | some u => .ok (u.id, u.green_score)

/-- Resolution of a product identifier against the `products` table by its
primary-key column `id`, as the schema of `init_db` defines it. -/
def findProduct (st : DBState) (pid : String) : Option ProductRow :=
  st.products.find? (fun p => p.id == pid)

/-- `record_purchase`, `POST /purchases` (source lines 166-200).  The user
lookup is `SELECT * FROM users WHERE id = ?`; when it returns no row the
handler raises `HTTPException(404, "User not found")`.  The product lookup is
`SELECT * FROM products WHERE product_id = ?`: the `products` table created by
`init_db` has columns (id, name, cost, carbon_emission, sustainability_score)
and no column `product_id`, so SQLite rejects the statement itself with
`OperationalError: no such column: product_id` whenever it is executed —
before any row could be fetched, and with no write performed.  The rest of the
handler (the 404 for a missing product, the green-score update, the purchase
insert and the response) is unreachable. -/
def record_purchase (st : DBState) (user_id product_id : String) :
    Except ApiError (DBState × PurchaseRow) :=
  match st.users.find? (fun u => u.id == user_id) with
  | none => .error (.httpError 404 "User not found")
  | some _ => .error (.operationalError "no such column: product_id")

/-- The response-row shape of `GET /users/{user_id}/purchases`
(pydantic model `UserPurchaseResponse`). -/
structure UserPurchaseItem where
  id : Nat
  product_id : String
  product_name : String
  timestamp : String
  impact_on_green_score : ℚ
deriving DecidableEq

/-- `get_user_purchases`, `GET /users/{user_id}/purchases` (source lines
203-238).  Its first statement is `conn = get_db_connection()`, but no
`get_db_connection` is defined or imported anywhere in the repository (the
only source file defines no such name), so every request raises `NameError`
before any state is read; the remainder of the handler (which also references
an undefined bare `HTTPException` and indexes tuple rows by string keys) is
unreachable. -/
def get_user_purchases (st : DBState) (user_id : String) :
    Except ApiError (List UserPurchaseItem) :=
  .error (.nameError "get_db_connection")

/-! ### Concrete fixtures used to evaluate the handlers -/

/-- A registered user with identifier `"u1"` and green score 0. -/
def sampleUser : UserRow := ⟨"u1", "1234567890", "Alice", 0⟩

/-- A catalogued product with identifier `"p1"` (cost 10, emission 5,
sustainability score 24, matching the spec's section-8 example). -/
def sampleProduct : ProductRow := ⟨"p1", "Soap", 10, 5, 24⟩

/-- A state holding `sampleUser` and `sampleProduct` and no purchases. -/
def sampleState : DBState := ⟨[sampleUser], [sampleProduct], [], 1⟩

/-! ### Helper lemmas -/

/-- Unfolding of `calculate_green_score` with its local bindings inlined. -/
theorem calculate_green_score_def (cost e : ℚ) :
    calculate_green_score cost e =
      ratTruncate (100 - max 0 ((50 - cost) / 50) * 20
                       - max 0 ((20 - e) / 20) * 80) := rfl

/-- Truncation toward zero is monotone. -/
theorem ratTruncate_mono {q₁ q₂ : ℚ} (h : q₁ ≤ q₂) :
    ratTruncate q₁ ≤ ratTruncate q₂ := by
  unfold ratTruncate
  by_cases h₁ : 0 ≤ q₁
  · rw [if_pos h₁, if_pos (le_trans h₁ h)]
    exact Int.floor_mono h
  · rw [if_neg h₁]
    by_cases h₂ : 0 ≤ q₂
    · rw [if_pos h₂]
      have hc : ⌈q₁⌉ ≤ 0 := Int.ceil_le.mpr (by exact_mod_cast le_of_not_le h₁)
      have hf : (0 : ℤ) ≤ ⌊q₂⌋ := Int.le_floor.mpr (by exact_mod_cast h₂)
      exact le_trans hc hf
    · rw [if_neg h₂]
      exact Int.ceil_mono h

/-- Truncation toward zero of a nonnegative rational is nonnegative. -/
theorem ratTruncate_nonneg {q : ℚ} (h : 0 ≤ q) : 0 ≤ ratTruncate q := by
  unfold ratTruncate
  rw [if_pos h]
  exact Int.le_floor.mpr (by exact_mod_cast h)

/-- For nonnegative inputs the raw (untruncated) score is nonnegative, because
each penalty factor is capped by its weight. -/
theorem green_score_nonneg (cost e : ℚ) (hc : 0 ≤ cost) (he : 0 ≤ e) :
    0 ≤ calculate_green_score cost e := by
  rw [calculate_green_score_def]
  apply ratTruncate_nonneg
  have h₁ : max 0 ((50 - cost) / 50) ≤ 1 := by
    apply max_le (by norm_num)
    rw [div_le_one (by norm_num : (0 : ℚ) < 50)]
    linarith
  have h₂ : max 0 ((20 - e) / 20) ≤ 1 := by
    apply max_le (by norm_num)
    rw [div_le_one (by norm_num : (0 : ℚ) < 20)]
    linarith
  have h₃ : max 0 ((50 - cost) / 50) * 20 ≤ 1 * 20 :=
    mul_le_mul_of_nonneg_right h₁ (by norm_num)
  have h₄ : max 0 ((20 - e) / 20) * 80 ≤ 1 * 80 :=
    mul_le_mul_of_nonneg_right h₂ (by norm_num)
  linarith

/-! ### Claims -/

/-- C1: the spec says `record_purchase`, for a request whose user and product
identifiers both resolve, updates the user's score, appends a Purchase and
returns it.  The code cannot do this: with user `"u1"` and product `"p1"` both
present (both references resolve), the product lookup
`SELECT * FROM products WHERE product_id = ?` names a nonexistent column, so
the handler raises `sqlite3.OperationalError` and records nothing. -/
theorem C1_record_purchase_sql_error_on_resolvable_refs :
    get_user sampleState "u1" = .ok sampleUser ∧
    findProduct sampleState "p1" = some sampleProduct ∧
    record_purchase sampleState "u1" "p1" =
      .error (.operationalError "no such column: product_id") :=
  ⟨rfl, rfl, rfl⟩

/-- C2: for every `cost ≥ 0` and `carbon_emission ≥ 0`,
`calculate_green_score` equals the spec's formula
`100 − max(0, (50 − cost)/50) × 20 − max(0, (20 − carbon_emission)/20) × 80`
truncated toward zero; in particular it is `100` whenever `cost ≥ 50` and
`carbon_emission ≥ 20`. -/
theorem C2_green_score_matches_spec_formula (cost e : ℚ)
    (hc : 0 ≤ cost) (he : 0 ≤ e) :
    calculate_green_score cost e = spec_green_score cost e ∧
    (50 ≤ cost → 20 ≤ e → calculate_green_score cost e = 100) := by
  refine ⟨rfl, fun h50 h20 => ?_⟩
  rw [calculate_green_score_def]
  have h₁ : max 0 ((50 - cost) / 50) = 0 := by
    apply max_eq_left
    rw [div_nonpos_iff]
    right
    constructor <;> linarith
  have h₂ : max 0 ((20 - e) / 20) = 0 := by
    apply max_eq_left
    rw [div_nonpos_iff]
    right
    constructor <;> linarith
  rw [h₁, h₂]
  norm_num [ratTruncate]

/-- C2 witness: at `cost = 60`, `carbon_emission = 25` the function agrees
with the spec formula and yields 100. -/
theorem C2_green_score_matches_spec_formula_witness :
    calculate_green_score 60 25 = spec_green_score 60 25 ∧
    calculate_green_score 60 25 = 100 := by
  have h := C2_green_score_matches_spec_formula 60 25 (by norm_num) (by norm_num)
  exact ⟨h.1, h.2 (by norm_num) (by norm_num)⟩

/-- C3: the spec's invariant says each user's green score equals the sum of
the impacts of their purchases, established at 0.0 by registration and
maintained because each purchase recording adds its impact and appends one
purchase.  The code establishes the base case (registration with score 0 and
no purchases) but can never perform the inductive step: recording a purchase
for the freshly registered user, with the product present, fails with the
`no such column: product_id` SQL error, so no purchase is ever appended and
no impact is ever added. -/
theorem C3_purchase_impact_bookkeeping_unreachable :
    register_user ⟨[], [sampleProduct], [], 1⟩ "u1" ⟨"1234567890", "Alice"⟩ =
      .ok (⟨[⟨"u1", "1234567890", "Alice", 0⟩], [sampleProduct], [], 1⟩,
           ⟨"u1", "1234567890", "Alice", 0⟩) ∧
    record_purchase ⟨[⟨"u1", "1234567890", "Alice", 0⟩], [sampleProduct], [], 1⟩
        "u1" "p1" =
      .error (.operationalError "no such column: product_id") :=
  ⟨rfl, rfl⟩

/-- C4: the spec says a product identifier that does not resolve makes
`record_purchase` fail with NotFound for the product.  In the code that branch
is unreachable: for existing user `"u1"` and a product identifier that
resolves to nothing, the handler raises the `no such column: product_id` SQL
error (a 500), not the 404 `"Product not found"`. -/
theorem C4_missing_product_yields_sql_error :
    get_user sampleState "u1" = .ok sampleUser ∧
    findProduct sampleState "nonexistent" = none ∧
    record_purchase sampleState "u1" "nonexistent" =
      .error (.operationalError "no such column: product_id") :=
  ⟨rfl, rfl, rfl⟩

/-- C5 counterexample: the claim asserts some `cost ≥ 0`, `carbon_emission ≥ 0`
drive the score strictly below zero; in fact each penalty factor is capped by
its weight (20 and 80), so the score is never negative on that domain. -/
theorem C5_counterexample_no_negative_score_on_valid_inputs :
    ¬ ∃ cost e : ℚ, 0 ≤ cost ∧ 0 ≤ e ∧ calculate_green_score cost e < 0 := by
  rintro ⟨c, e, hc, he, hlt⟩
  exact absurd (green_score_nonneg c e hc he) (not_le.mpr hlt)

/-- C5 amended: for every `cost ≥ 0` and `carbon_emission ≥ 0` the score is
nonnegative, with minimum 0 attained at `cost = 0`, `carbon_emission = 0`;
the code applies no clamping, so strictly negative scores are reachable only
for negative inputs (e.g. `cost = −50`, `carbon_emission = −20` yields −100). -/
theorem C5_score_nonneg_on_valid_domain_no_clamping (cost e : ℚ)
    (hc : 0 ≤ cost) (he : 0 ≤ e) :
    0 ≤ calculate_green_score cost e ∧
    calculate_green_score 0 0 = 0 ∧
    calculate_green_score (-50) (-20) = -100 := by
  refine ⟨green_score_nonneg cost e hc he, ?_, ?_⟩
  · norm_num [calculate_green_score, ratTruncate]
  · norm_num [calculate_green_score, ratTruncate]
    rw [show ((-100 : ℚ)) = ((-100 : ℤ) : ℚ) by norm_num, Int.ceil_intCast]

/-- C5 witness: instantiation at `cost = 10`, `carbon_emission = 5`. -/
theorem C5_score_nonneg_on_valid_domain_no_clamping_witness :
    0 ≤ calculate_green_score 10 5 ∧
    calculate_green_score 0 0 = 0 ∧
    calculate_green_score (-50) (-20) = -100 :=
  C5_score_nonneg_on_valid_domain_no_clamping 10 5 (by norm_num) (by norm_num)

/-- C6: the spec says listing an existing user's purchases succeeds with the
purchase projection, and fails 404 for a missing user.  The code's handler
begins with `conn = get_db_connection()`, a name defined nowhere in the
repository, so every request — whatever the state and whichever user — raises
`NameError` (a 500): it never returns a purchase list and never reaches the
404 branch. -/
theorem C6_get_user_purchases_always_raises_name_error
    (st : DBState) (uid : String) :
    get_user_purchases st uid = .error (.nameError "get_db_connection") := rfl

/-- C7 counterexample: the claim says an empty display name is rejected as a
validation error; the code's pydantic model constrains only the phone number,
so registering with a valid phone and the empty name succeeds and creates the
user. -/
theorem C7_counterexample_empty_name_accepted :
    register_user ⟨[], [], [], 1⟩ "u1" ⟨"1234567890", ""⟩ =
      .ok (⟨[⟨"u1", "1234567890", "", 0⟩], [], [], 1⟩,
           ⟨"u1", "1234567890", "", 0⟩) := rfl

/-- C7 amended: a phone number not matching exactly ten digits is rejected as
a validation error, but the display name is not validated (an empty name is
accepted); a phone number already associated with an existing user fails with
Conflict (HTTP 400, state unchanged); otherwise the user is created with the
freshly generated identifier and green score 0.0, appended, and returned. -/
theorem C7_register_user_behavior (st : DBState) (newId : String)
    (req : UserRequest) :
    (validPhone req.phone_number = false →
        register_user st newId req = .error .validationError) ∧
    (validPhone req.phone_number = true →
      ((∃ u ∈ st.users, u.phone_number = req.phone_number) →
          register_user st newId req =
            .error (.httpError 400 "Phone number already registered")) ∧
      ((∀ u ∈ st.users, u.phone_number ≠ req.phone_number) →
          register_user st newId req =
            .ok ({ st with
                    users := st.users ++ [⟨newId, req.phone_number, req.name, 0⟩] },
                 ⟨newId, req.phone_number, req.name, 0⟩))) := by
  refine ⟨fun hv => ?_, fun hv => ⟨fun hex => ?_, fun hall => ?_⟩⟩
  · simp only [register_user, hv, Bool.false_eq_true, if_false]
  · have hsome : (st.users.find?
        (fun u => u.phone_number == req.phone_number)).isSome := by
      rw [List.find?_isSome]
      obtain ⟨u, hu, hphone⟩ := hex
      exact ⟨u, hu, by simpa using hphone⟩
    obtain ⟨w, hw⟩ := Option.isSome_iff_exists.mp hsome
    simp only [register_user, hv, if_true, hw]
  · have hnone : st.users.find?
        (fun u => u.phone_number == req.phone_number) = none := by
      rw [List.find?_eq_none]
      intro u hu
      simpa using hall u hu
    simp only [register_user, hv, if_true, hnone]

/-- C7 witness: on the empty state, a valid ten-digit phone and name
`"Alice"` register successfully with score 0. -/
theorem C7_register_user_behavior_witness :
    register_user ⟨[], [], [], 1⟩ "u1" ⟨"1234567890", "Alice"⟩ =
      .ok (⟨[⟨"u1", "1234567890", "Alice", 0⟩], [], [], 1⟩,
           ⟨"u1", "1234567890", "Alice", 0⟩) := by
  have h := C7_register_user_behavior ⟨[], [], [], 1⟩ "u1" ⟨"1234567890", "Alice"⟩
  exact (h.2 (by decide)).2 (by simp)

/-- C8: holding either argument fixed, `calculate_green_score` is monotone
nondecreasing in the other on the nonnegative domain: a lower cost (below 50)
or a lower emission (below 20) never yields a higher score. -/
theorem C8_green_score_monotone (c c₁ c₂ e e₁ e₂ : ℚ)
    (hc₁ : 0 ≤ c₁) (hcc : c₁ ≤ c₂) (he₁ : 0 ≤ e₁) (hee : e₁ ≤ e₂) :
    calculate_green_score c₁ e ≤ calculate_green_score c₂ e ∧
    calculate_green_score c e₁ ≤ calculate_green_score c e₂ := by
  constructor
  · rw [calculate_green_score_def, calculate_green_score_def]
    apply ratTruncate_mono
    have hdiv : (50 - c₂) / 50 ≤ (50 - c₁) / 50 :=
      (div_le_div_iff_of_pos_right (by norm_num : (0 : ℚ) < 50)).mpr (by linarith)
    have hmul : max 0 ((50 - c₂) / 50) * 20 ≤ max 0 ((50 - c₁) / 50) * 20 :=
      mul_le_mul_of_nonneg_right (max_le_max le_rfl hdiv) (by norm_num)
    linarith
  · rw [calculate_green_score_def, calculate_green_score_def]
    apply ratTruncate_mono
    have hdiv : (20 - e₂) / 20 ≤ (20 - e₁) / 20 :=
      (div_le_div_iff_of_pos_right (by norm_num : (0 : ℚ) < 20)).mpr (by linarith)
    have hmul : max 0 ((20 - e₂) / 20) * 80 ≤ max 0 ((20 - e₁) / 20) * 80 :=
      mul_le_mul_of_nonneg_right (max_le_max le_rfl hdiv) (by norm_num)
    linarith

/-- C8 witness: `score(10, 5) ≤ score(20, 5)` and `score(30, 2) ≤ score(30, 6)`. -/
theorem C8_green_score_monotone_witness :
    calculate_green_score 10 5 ≤ calculate_green_score 20 5 ∧
    calculate_green_score 30 2 ≤ calculate_green_score 30 6 :=
  C8_green_score_monotone 30 10 20 5 2 6
    (by norm_num) (by norm_num) (by norm_num) (by norm_num)

/-- C9: the spec says purchase identifiers are assigned in strictly increasing
recording order over successful recordings.  In the code no recording can ever
succeed — for every state and every pair of identifiers `record_purchase`
returns an error (404 when the user is missing, otherwise the
`no such column: product_id` SQL error) — so the identifier-assigning insert
is dead code and the ordering property is vacuous. -/
theorem C9_no_purchase_recording_ever_succeeds
    (st : DBState) (uid pid : String) (out : DBState × PurchaseRow) :
    record_purchase st uid pid ≠ .ok out := by
  unfold record_purchase
  cases st.users.find? (fun u => u.id == uid) <;> simp

/-- C10: in `record_purchase` the user existence check runs before the product
lookup, so whenever both the user and the product identifier fail to resolve,
the reported error is the 404 naming the user. -/
theorem C10_user_check_precedes_product_check (st : DBState) (uid pid : String)
    (hu : st.users.find? (fun u => u.id == uid) = none)
    (hp : findProduct st pid = none) :
    record_purchase st uid pid = .error (.httpError 404 "User not found") := by
  unfold record_purchase
  rw [hu]

/-- C10 witness: on the empty state neither `"u0"` nor `"p0"` resolves and
the result is the user 404. -/
theorem C10_user_check_precedes_product_check_witness :
    record_purchase ⟨[], [], [], 1⟩ "u0" "p0" =
      .error (.httpError 404 "User not found") :=
  C10_user_check_precedes_product_check ⟨[], [], [], 1⟩ "u0" "p0" rfl rfl

end Greenscore
